import Mathlib

/-!
Verification of the CachimBot Telegram RAG pipeline (`bottelegram.py`).

The source is a single Python file: it loads documents from a Google Drive
folder (`get_documents_from_drive`), splits them into chunks, builds a FAISS
index and a RetrievalQA chain, and serves Telegram questions (`main`,
`handle_message`).  External effects (Drive download, extraction, embedding,
model calls) are modelled as oracle functions that either succeed or raise an
exception (`Except String`); the control flow, dispatch tables, string
literals and error handling are translated directly from the source.
-/

namespace CachimBot

/-- A langchain Document as produced by the Unstructured loaders:
a text body (`page_content`) plus source metadata. -/
structure Document where
  page_content : String
  source : String
deriving DecidableEq, Repr

/-- A file descriptor from the Drive listing, `fields="files(id, name, mimeType)"`
(line 48 of the source). -/
structure DriveFile where
  id : String
  name : String
  mimeType : String
deriving DecidableEq, Repr

/-- The request object built per file: either `files().export_media(fileId, mimeType)`
or `files().get_media(fileId)` (lines 60, 64, 71). -/
inductive DriveRequest where
  | exportMedia (fileId : String) (targetMime : String)
  | getMedia (fileId : String)
deriving DecidableEq, Repr

/-- Log messages emitted inside the loading loop (lines 68, 89, 96). -/
inductive LogEntry where
  | warnSpreadsheetSkipped (name : String)
  | warnUnsupported (name : String)
  | errorProcessing (name : String) (msg : String)
deriving DecidableEq, Repr

/-- State threaded through the loading loop: the accumulated `documents`
list, the log, and how many per-file temporary files have been created
(`tempfile.NamedTemporaryFile`, line 74) and released.  The source uses
`delete=False` and never closes or unlinks the file, so nothing ever
increments `tempFilesReleased`. -/
structure LoadState where
  documents : List Document
  log : List LogEntry
  tempFilesCreated : Nat
  tempFilesReleased : Nat
deriving DecidableEq, Repr

def initState : LoadState := ⟨[], [], 0, 0⟩

/-- The extension part of `os.path.splitext(name)[-1]` for a plain file name:
the suffix starting at the last dot, except that leading dots of the name do
not begin an extension (`splitext(".bashrc") = (".bashrc", "")`). -/
def extFromLastDot : List Char → Option (List Char)
  | [] => none
  | c :: cs =>
    match extFromLastDot cs with
    | some e => some e
    | none => if c = '.' then some (c :: cs) else none

def splitextExt (name : String) : String :=
  let cs := name.toList
  let rest := cs.drop ((cs.takeWhile (fun c => c = '.')).length)
  match extFromLastDot rest with
  | some e => String.mk e
  | none => ""

def googleDocMime : String := "application/vnd.google-apps.document"
def googleSlidesMime : String := "application/vnd.google-apps.presentation"
def googleSheetMime : String := "application/vnd.google-apps.spreadsheet"
def wordExportMime : String :=
  "application/vnd.openxmlformats-officedocument.wordprocessingml.document"
def pptExportMime : String :=
  "application/vnd.openxmlformats-officedocument.presentationml.presentation"

/-- The mimetype dispatch of lines 59-72: Google Docs are exported to .docx,
Google Slides to .pptx, Google Sheets are skipped (`none`), and anything else
is downloaded as-is with the extension taken from the file name. -/
def mimeDispatch (file : DriveFile) : Option (DriveRequest × String) :=
  if file.mimeType = googleDocMime then
    some (.exportMedia file.id wordExportMime, ".docx")
  else if file.mimeType = googleSlidesMime then
    some (.exportMedia file.id pptExportMime, ".pptx")
  else if file.mimeType = googleSheetMime then
    none
  else
    some (.getMedia file.id, splitextExt file.name)

/-- The extension dispatch of lines 82-90: which Unstructured loader handles
the staged file, `none` meaning the unsupported-type skip. -/
inductive LoaderKind where
  | pdf
  | word
  | powerpoint
deriving DecidableEq, Repr

def extensionLoader (extension : String) : Option LoaderKind :=
  if extension = ".pdf" then some .pdf
  else if extension = ".docx" then some .word
  else if extension = ".pptx" then some .powerpoint
  else none

/-- Oracles for the external effects inside the per-file try block:
`MediaIoBaseDownload.next_chunk` (lines 75-79) and `loader.load()` (line 92).
Each may raise, modelled as `Except.error`. -/
structure DriveEnv where
  download : DriveRequest → Except String Unit
  extract : LoaderKind → DriveFile → Except String (List Document)

/-- One iteration of the `for file in files` loop (lines 52-97).  The
spreadsheet skip happens before the temp file is created; the try/except
catches any exception from the download or the extraction and logs it with
the file's name (line 96), then the loop continues. -/
def processFile (env : DriveEnv) (st : LoadState) (file : DriveFile) : LoadState :=
  match mimeDispatch file with
  | none =>
    { st with log := st.log ++ [.warnSpreadsheetSkipped file.name] }
  | some (req, extension) =>
    let st1 := { st with tempFilesCreated := st.tempFilesCreated + 1 }
    match env.download req with
    | .error e => { st1 with log := st1.log ++ [.errorProcessing file.name e] }
    | .ok () =>
      match extensionLoader extension with
      | none => { st1 with log := st1.log ++ [.warnUnsupported file.name] }
      | some kind =>
        match env.extract kind file with
        | .error e => { st1 with log := st1.log ++ [.errorProcessing file.name e] }
        | .ok docs => { st1 with documents := st1.documents ++ docs }

/-- What the try block of lines 57-93 contributes for one file: the extracted
documents on success, `[]` on a deliberate skip, or the uncaught exception. -/
def fileOutcome (env : DriveEnv) (file : DriveFile) : Except String (List Document) :=
  match mimeDispatch file with
  | none => .ok []
  | some (req, extension) =>
    match env.download req with
    | .error e => .error e
    | .ok () =>
      match extensionLoader extension with
      | none => .ok []
      | some kind => env.extract kind file

/-- Oracles for the setup stage of lines 42-48, which runs before the loop
and outside any try: credential decoding (`base64.b64decode`, `json.loads`,
`Credentials.from_service_account_info`), service construction (`build`),
and the folder listing (`files().list(...).execute()`). -/
structure DriveSetupEnv where
  decodeCredentials : Except String Unit
  buildService : Except String Unit
  listFiles : Except String (List DriveFile)

def driveSetup (senv : DriveSetupEnv) : Except String (List DriveFile) := do
  senv.decodeCredentials
  senv.buildService
  senv.listFiles

/-- `get_documents_from_drive` (lines 41-98): run the setup stage (whose
exceptions propagate to the caller), then fold the per-file loop. -/
def get_documents_from_drive (senv : DriveSetupEnv) (env : DriveEnv) :
    Except String LoadState :=
  match driveSetup senv with
  | .error e => .error e
  | .ok files => .ok (files.foldl (processFile env) initState)

/-- The documents contributed by a list of files: each file contributes its
successful extraction result, and nothing on a skip or an error. -/
def extractedDocs (env : DriveEnv) (files : List DriveFile) : List Document :=
  files.flatMap fun f => (fileOutcome env f).toOption.getD []

/-- Modelled from the spec: the chunker is langchain's
`RecursiveCharacterTextSplitter` (line 113), external to this repository.
The spec (section 4.2) describes it as greedily walking the body and
"producing chunks of length `chunk_size`, advancing the window by
`chunk_size - chunk_overlap` each step, until the whole body is covered;
the final chunk may be shorter than `chunk_size`", with invariant
`0 <= chunk_overlap < chunk_size` and an empty document yielding zero
chunks.  `S` is the chunk size, `O` the overlap. -/
def splitBody (S O : Nat) (hO : O < S) (body : List Char) : List (List Char) :=
  if h0 : body.length = 0 then []
  else if h1 : body.length ≤ S then [body]
  else body.take S :: splitBody S O hO (body.drop (S - O))
termination_by body.length
decreasing_by
  simp only [List.length_drop]
  omega

/-- Modelled from the spec: `split_documents` (line 114) splits each
document's body and keeps its source metadata unchanged on every chunk. -/
def split_documents (S O : Nat) (hO : O < S) (docs : List Document) :
    List Document :=
  docs.flatMap fun d =>
    (splitBody S O hO d.page_content.toList).map fun cs => ⟨String.mk cs, d.source⟩

/-- The splitter exactly as `main` calls it at line 113:
`RecursiveCharacterTextSplitter(chunk_size=1000, chunk_overlap=100)`. -/
def splitMain (docs : List Document) : List Document :=
  split_documents 1000 100 (by omega) docs

/-- The shape of the dict returned by `qa_chain.ainvoke` (line 138). -/
structure QAResponse where
  fields : List (String × String)

/-- Python `dict.get(key, fallback)`. -/
def QAResponse.get (r : QAResponse) (key fallback : String) : String :=
  match r.fields.lookup key with
  | some v => v
  | none => fallback

/-- The RetrievalQA chain built at line 123, as the bot sees it: an oracle
from a question to either a response dict or a raised exception (covering
embedding, retrieval and model-call failures inside `ainvoke`). -/
structure QAChain where
  ainvoke : String → Except String QAResponse

/-- `handle_message` (lines 134-143): invoke the chain inside try/except;
on success reply with `result.get("result", ...)`, on any exception log and
reply with the fixed error message.  The returned pair is (the chain
available for the next question, the reply text); the handler never
reassigns `qa_chain`, so the first component is always the input chain. -/
def handle_message (chain : QAChain) (user_question : String) :
    QAChain × String :=
  match chain.ainvoke user_question with
  | .ok result => (chain, result.get "result" "No encontré información.")
  | .error _ => (chain, "Ocurrió un error al procesar tu pregunta.")

/-- Oracle for lines 120-126: `OpenAIEmbeddings`, `FAISS.from_documents` and
`RetrievalQA.from_chain_type`, which may raise and otherwise yield the chain. -/
structure BuildEnv where
  buildChain : List Document → Except String QAChain

/-- The observable result of `main`: an uncaught exception propagated
(`crashed`), an early `return` after a fatal-condition check (`halted`, no
handlers registered, no polling), or the bot running (`ready`, carrying the
chain and the names of the registered handlers, lines 145-149). -/
inductive MainResult where
  | crashed (msg : String)
  | halted
  | ready (chain : QAChain) (handlers : List String)

/-- `main` (lines 103-149): load documents (exceptions propagate), return
early if none, split into chunks with `chunk_size=1000, chunk_overlap=100`,
return early if no chunks, build the chain (exceptions propagate), then
register the `start` and message handlers and start polling. -/
def main (senv : DriveSetupEnv) (env : DriveEnv) (benv : BuildEnv) :
    MainResult :=
  match get_documents_from_drive senv env with
  | .error e => .crashed e
  | .ok st =>
    if st.documents.isEmpty then .halted
    else
      let texts := splitMain st.documents
      if texts.isEmpty then .halted
      else
        match benv.buildChain texts with
        | .error e => .crashed e
        | .ok chain => .ready chain ["start", "handle_message"]

/-! Concrete instances used to evaluate the model on closed inputs. -/

/-- An environment in which every download succeeds and every extraction
yields no documents. -/
def envNoop : DriveEnv := ⟨fun _ => .ok (), fun _ _ => .ok []⟩

def benvNoop : BuildEnv := ⟨fun _ => .ok ⟨fun _ => .ok ⟨[]⟩⟩⟩

/-- A listing with no files in the folder. -/
def senvNoFiles : DriveSetupEnv := ⟨.ok (), .ok (), .ok []⟩

/-- A setup stage whose credential decoding raises. -/
def senvBadCreds : DriveSetupEnv :=
  ⟨.error "invalid base64 credentials", .ok (), .ok []⟩

def fileNotes : DriveFile := ⟨"f1", "notes.pdf", "application/pdf"⟩

def fileBroken : DriveFile := ⟨"f2", "broken.pdf", "application/pdf"⟩

def docNotes : Document := ⟨"hello world", "notes.pdf"⟩

/-- A batch of two files in which only `fileBroken`'s download raises. -/
def envOneBad : DriveEnv :=
  ⟨fun req =>
    match req with
    | .getMedia "f2" => .error "corrupt payload"
    | _ => .ok (),
   fun _ f => if f.id = "f1" then .ok [docNotes] else .error "unreachable"⟩

def senvOneBad : DriveSetupEnv := ⟨.ok (), .ok (), .ok [fileNotes, fileBroken]⟩

/-- A chain whose model call always raises. -/
def chainFails : QAChain := ⟨fun _ => .error "rate limit"⟩

/-- A chain whose response dict has no "result" key. -/
def chainNoAnswer : QAChain := ⟨fun _ => .ok ⟨[]⟩⟩

/-- A chain whose response dict carries an answer. -/
def chainAnswer : QAChain := ⟨fun _ => .ok ⟨[("result", "Paris")]⟩⟩

def fDoc : DriveFile := ⟨"d1", "syllabus", googleDocMime⟩

def fSlides : DriveFile := ⟨"d2", "lecture", googleSlidesMime⟩

def fSheet : DriveFile := ⟨"d3", "grades", googleSheetMime⟩

def fPlain : DriveFile := ⟨"d4", "report.pdf", "application/pdf"⟩

def fText : DriveFile := ⟨"d5", "readme.txt", "text/plain"⟩

def filePdf : DriveFile := ⟨"p1", "paper.pdf", "application/pdf"⟩

/-- An environment in which `filePdf` downloads and extracts successfully. -/
def envPdf : DriveEnv :=
  ⟨fun _ => .ok (), fun _ _ => .ok [⟨"lorem ipsum", "paper.pdf"⟩]⟩

def fileEmpty : DriveFile := ⟨"e1", "empty.pdf", "application/pdf"⟩

/-- An environment in which extraction succeeds but yields a document whose
body is the empty string. -/
def envEmptyDoc : DriveEnv := ⟨fun _ => .ok (), fun _ _ => .ok [⟨"", "empty.pdf"⟩]⟩

def senvEmptyDoc : DriveSetupEnv := ⟨.ok (), .ok (), .ok [fileEmpty]⟩

def stEmptyDoc : LoadState := ⟨[⟨"", "empty.pdf"⟩], [], 1, 0⟩

/-! Helper lemmas about the loading loop. -/

theorem processFile_documents (env : DriveEnv) (st : LoadState) (file : DriveFile) :
    (processFile env st file).documents =
      st.documents ++ (fileOutcome env file).toOption.getD [] := by
  cases hmd : mimeDispatch file with
  | none => simp [processFile, fileOutcome, hmd, Except.toOption]
  | some pe =>
    obtain ⟨req, extension⟩ := pe
    cases hdl : env.download req with
    | error e => simp [processFile, fileOutcome, hmd, hdl, Except.toOption]
    | ok u =>
      cases u
      cases hel : extensionLoader extension with
      | none => simp [processFile, fileOutcome, hmd, hdl, hel, Except.toOption]
      | some kind =>
        cases hex : env.extract kind file with
        | error e => simp [processFile, fileOutcome, hmd, hdl, hel, hex, Except.toOption]
        | ok docs => simp [processFile, fileOutcome, hmd, hdl, hel, hex, Except.toOption]

theorem processFile_log_mono (env : DriveEnv) (st : LoadState) (file : DriveFile) :
    ∃ l, (processFile env st file).log = st.log ++ l := by
  cases hmd : mimeDispatch file with
  | none =>
    exact ⟨[.warnSpreadsheetSkipped file.name], by simp [processFile, hmd]⟩
  | some pe =>
    obtain ⟨req, extension⟩ := pe
    cases hdl : env.download req with
    | error e =>
      exact ⟨[.errorProcessing file.name e], by simp [processFile, hmd, hdl]⟩
    | ok u =>
      cases u
      cases hel : extensionLoader extension with
      | none =>
        exact ⟨[.warnUnsupported file.name], by simp [processFile, hmd, hdl, hel]⟩
      | some kind =>
        cases hex : env.extract kind file with
        | error e =>
          exact ⟨[.errorProcessing file.name e], by simp [processFile, hmd, hdl, hel, hex]⟩
        | ok docs =>
          exact ⟨[], by simp [processFile, hmd, hdl, hel, hex]⟩

theorem processFile_log_error (env : DriveEnv) (st : LoadState) (file : DriveFile)
    (e : String) (h : fileOutcome env file = .error e) :
    LogEntry.errorProcessing file.name e ∈ (processFile env st file).log := by
  cases hmd : mimeDispatch file with
  | none => simp [fileOutcome, hmd] at h
  | some pe =>
    obtain ⟨req, extension⟩ := pe
    cases hdl : env.download req with
    | error e2 =>
      have he : e2 = e := by simpa [fileOutcome, hmd, hdl] using h
      subst he
      simp [processFile, hmd, hdl]
    | ok u =>
      cases u
      cases hel : extensionLoader extension with
      | none => simp [fileOutcome, hmd, hdl, hel] at h
      | some kind =>
        cases hex : env.extract kind file with
        | error e2 =>
          have he : e2 = e := by simpa [fileOutcome, hmd, hdl, hel, hex] using h
          subst he
          simp [processFile, hmd, hdl, hel, hex]
        | ok docs => simp [fileOutcome, hmd, hdl, hel, hex] at h

theorem foldl_processFile_documents (env : DriveEnv) (files : List DriveFile)
    (st : LoadState) :
    (files.foldl (processFile env) st).documents =
      st.documents ++ extractedDocs env files := by
  induction files generalizing st with
  | nil => simp [extractedDocs]
  | cons f fs ih =>
    simp only [List.foldl_cons, extractedDocs, List.flatMap_cons]
    rw [ih, processFile_documents]
    simp [extractedDocs, List.append_assoc]

theorem foldl_processFile_log_mono (env : DriveEnv) (files : List DriveFile)
    (st : LoadState) (entry : LogEntry) (h : entry ∈ st.log) :
    entry ∈ (files.foldl (processFile env) st).log := by
  induction files generalizing st with
  | nil => exact h
  | cons f fs ih =>
    apply ih
    obtain ⟨l, hl⟩ := processFile_log_mono env st f
    rw [hl]
    exact List.mem_append_left _ h

theorem foldl_processFile_log_error (env : DriveEnv) (files : List DriveFile)
    (st : LoadState) (f : DriveFile) (e : String)
    (hf : f ∈ files) (h : fileOutcome env f = .error e) :
    LogEntry.errorProcessing f.name e ∈ (files.foldl (processFile env) st).log := by
  induction files generalizing st with
  | nil => cases hf
  | cons g gs ih =>
    rcases List.mem_cons.mp hf with rfl | hmem
    · exact foldl_processFile_log_mono env gs _ _ (processFile_log_error env st f e h)
    · exact ih _ hmem

/-! Helper lemmas about the splitter. -/

theorem splitBody_zero (S O : Nat) (hO : O < S) (body : List Char)
    (h : body.length = 0) : splitBody S O hO body = [] := by
  rw [splitBody]; simp [h]

theorem splitBody_small (S O : Nat) (hO : O < S) (body : List Char)
    (h0 : body.length ≠ 0) (h1 : body.length ≤ S) :
    splitBody S O hO body = [body] := by
  rw [splitBody]; simp [h0, h1]

theorem splitBody_step (S O : Nat) (hO : O < S) (body : List Char)
    (h : S < body.length) :
    splitBody S O hO body = body.take S :: splitBody S O hO (body.drop (S - O)) := by
  rw [splitBody]
  have h0 : ¬ body.length = 0 := by omega
  have h1 : ¬ body.length ≤ S := by omega
  simp [h0, h1]

theorem splitBody_length (S O : Nat) (hO : O < S) (body : List Char) :
    (splitBody S O hO body).length =
      if body.length = 0 then 0
      else if body.length ≤ O then 1
      else (body.length - O + (S - O) - 1) / (S - O) := by
  induction body using splitBody.induct S O hO with
  | case1 x hx =>
    rw [splitBody_zero S O hO x hx]
    simp [hx]
  | case2 x hx0 hx1 =>
    rw [splitBody_small S O hO x hx0 hx1]
    simp only [List.length_singleton]
    rw [if_neg hx0]
    by_cases hxo : x.length ≤ O
    · rw [if_pos hxo]
    · rw [if_neg hxo]
      symm
      apply Nat.div_eq_of_lt_le <;> omega
  | case3 x hx0 hx1 ih =>
    rw [splitBody_step S O hO x (by omega)]
    simp only [List.length_cons]
    have hlen : (List.drop (S - O) x).length = x.length - (S - O) := by
      simp [List.length_drop]
    have hd0 : ¬ (List.drop (S - O) x).length = 0 := by omega
    have hdO : ¬ (List.drop (S - O) x).length ≤ O := by omega
    rw [ih, if_neg hd0, if_neg hdO, if_neg hx0, if_neg (by omega : ¬ x.length ≤ O)]
    have key : x.length - O + (S - O) - 1 =
        ((List.drop (S - O) x).length - O + (S - O) - 1) + (S - O) := by omega
    rw [key, Nat.add_div_right _ (by omega : 0 < S - O)]

theorem splitBody_coverage (S O : Nat) (hO : O < S) (body : List Char) :
    ∀ i, i < body.length → ∃ c ∈ splitBody S O hO body, ∃ p,
      (S - O) ∣ p ∧ c = (body.drop p).take S ∧ p ≤ i ∧ i < p + c.length := by
  induction body using splitBody.induct S O hO with
  | case1 x hx => intro i hi; omega
  | case2 x hx0 hx1 =>
    intro i hi
    refine ⟨x, ?_, 0, dvd_zero _, ?_, Nat.zero_le _, by omega⟩
    · rw [splitBody_small S O hO x hx0 hx1]
      exact List.mem_singleton.mpr rfl
    · simp [List.take_of_length_le hx1]
  | case3 x hx0 hx1 ih =>
    intro i hi
    rw [splitBody_step S O hO x (by omega)]
    by_cases hiS : i < S
    · refine ⟨x.take S, List.mem_cons_self _ _, 0, dvd_zero _, by simp, Nat.zero_le _, ?_⟩
      simp only [List.length_take]
      omega
    · have hi' : i - (S - O) < (List.drop (S - O) x).length := by
        simp only [List.length_drop]; omega
      obtain ⟨c, hc, p', hdvd, hceq, hple, hlt⟩ := ih (i - (S - O)) hi'
      refine ⟨c, List.mem_cons_of_mem _ hc, (S - O) + p',
        dvd_add (dvd_refl _) hdvd, ?_, by omega, by omega⟩
      rw [hceq, List.drop_drop]

/-! The claims. -/

/-- C1: if the setup stage yields a batch in which processing one file
raises an exception, `get_documents_from_drive` catches it, logs it with
that file's name, excludes that file, and still returns the documents
extracted from every other file — one bad file never aborts the batch. -/
theorem loader_partial_failure (senv : DriveSetupEnv) (env : DriveEnv)
    (pre post : List DriveFile) (bad : DriveFile) (e : String)
    (hsetup : driveSetup senv = .ok (pre ++ bad :: post))
    (hbad : fileOutcome env bad = .error e) :
    ∃ st, get_documents_from_drive senv env = .ok st ∧
      st.documents = extractedDocs env pre ++ extractedDocs env post ∧
      LogEntry.errorProcessing bad.name e ∈ st.log := by
  refine ⟨(pre ++ bad :: post).foldl (processFile env) initState, ?_, ?_, ?_⟩
  · unfold get_documents_from_drive
    rw [hsetup]
  · rw [foldl_processFile_documents]
    simp [initState, extractedDocs, List.flatMap_append, List.flatMap_cons,
      hbad, Except.toOption]
  · exact foldl_processFile_log_error env _ initState bad e (by simp) hbad

theorem loader_partial_failure_witness :
    ∃ st, get_documents_from_drive senvOneBad envOneBad = .ok st ∧
      st.documents = extractedDocs envOneBad [fileNotes] ++ extractedDocs envOneBad [] ∧
      LogEntry.errorProcessing fileBroken.name "corrupt payload" ∈ st.log :=
  loader_partial_failure senvOneBad envOneBad [fileNotes] [] fileBroken
    "corrupt payload" rfl rfl

/-- C2: if the build phase loads zero documents or produces zero chunks,
`main` halts before the bot begins accepting questions — it returns
`halted` (no handlers registered, no polling) and never `ready`. -/
theorem fatal_startup_halts (senv : DriveSetupEnv) (env : DriveEnv)
    (benv : BuildEnv) (st : LoadState)
    (h : get_documents_from_drive senv env = .ok st)
    (hfatal : st.documents = [] ∨ splitMain st.documents = []) :
    main senv env benv = .halted ∧
      ∀ chain hs, main senv env benv ≠ MainResult.ready chain hs := by
  have hm : main senv env benv = .halted := by
    unfold main
    rw [h]
    rcases hfatal with hd | ht
    · simp [hd]
    · by_cases hd : st.documents.isEmpty
      · simp [hd]
      · simp [hd, ht]
  refine ⟨hm, fun chain hs he => ?_⟩
  rw [hm] at he
  exact MainResult.noConfusion he

theorem fatal_startup_halts_witness :
    main senvNoFiles envNoop benvNoop = .halted ∧
      ∀ chain hs, main senvNoFiles envNoop benvNoop ≠ MainResult.ready chain hs :=
  fatal_startup_halts senvNoFiles envNoop benvNoop initState rfl (Or.inl rfl)

/-- C3: if the chain invocation (embedding, retrieval or model call) raises,
`handle_message` catches it at the ask boundary, replies with the fixed
user-visible error message, leaves the pipeline unchanged, and subsequent
questions are served exactly as before. -/
theorem ask_error_caught (chain : QAChain) (q q2 e : String)
    (h : chain.ainvoke q = .error e) :
    (handle_message chain q).2 = "Ocurrió un error al procesar tu pregunta." ∧
    (handle_message chain q).1 = chain ∧
    handle_message (handle_message chain q).1 q2 = handle_message chain q2 := by
  have hfst : (handle_message chain q).1 = chain := by
    unfold handle_message
    cases chain.ainvoke q <;> rfl
  refine ⟨?_, hfst, by rw [hfst]⟩
  unfold handle_message
  rw [h]

theorem ask_error_caught_witness :
    (handle_message chainFails "q").2 = "Ocurrió un error al procesar tu pregunta." ∧
    (handle_message chainFails "q").1 = chainFails ∧
    handle_message (handle_message chainFails "q").1 "q2" = handle_message chainFails "q2" :=
  ask_error_caught chainFails "q" "q2" "rate limit" rfl

/-- C4: for a body of length L split with chunk size S and overlap O (O < S),
the chunk count is the ceiling of (L - O) / (S - O) whenever L = 0 or L > O
(with a single final short chunk when 0 < L ≤ O), and every character
position of the body lies inside some chunk, each chunk being a window
`(body.drop p).take S` whose start p is a multiple of the step S - O. -/
theorem split_count_and_coverage (S O : Nat) (hO : O < S) (body : List Char) :
    ((body.length = 0 ∨ O < body.length) →
      (splitBody S O hO body).length = (body.length - O + (S - O) - 1) / (S - O)) ∧
    (0 < body.length → body.length ≤ O → (splitBody S O hO body).length = 1) ∧
    (∀ i, i < body.length → ∃ c ∈ splitBody S O hO body, ∃ p, (S - O) ∣ p ∧
      c = (body.drop p).take S ∧ p ≤ i ∧ i < p + c.length) := by
  refine ⟨?_, ?_, splitBody_coverage S O hO body⟩
  · rintro (hz | hgt)
    · rw [splitBody_length, if_pos hz]
      symm
      apply Nat.div_eq_of_lt
      omega
    · rw [splitBody_length, if_neg (by omega), if_neg (by omega)]
  · intro h1 h2
    rw [splitBody_length, if_neg (by omega), if_pos h2]

theorem split_count_and_coverage_witness :
    (splitBody 3 1 (by omega) ['a', 'b', 'c', 'd', 'e']).length = 2 :=
  (split_count_and_coverage 3 1 (by omega) ['a', 'b', 'c', 'd', 'e']).1
    (Or.inr (by decide))

/-- C5 counterexample: on a model response lacking the "result" field the
reply is the literal Spanish fallback "No encontré información.", not the
string "No relevant information found" that the claim names. -/
theorem fallback_string_counterexample :
    (handle_message chainNoAnswer "q").2 = "No encontré información." ∧
    "No encontré información." ≠ "No relevant information found" := by
  exact ⟨rfl, by decide⟩

/-- C5 (amended): for every model response that lacks an extractable
"result" field, the reply is the fixed fallback string
"No encontré información." rather than an exception; otherwise it is the
literal answer text from the response. -/
theorem fallback_string_amended (chain : QAChain) (q : String) (r : QAResponse)
    (h : chain.ainvoke q = .ok r) :
    (r.fields.lookup "result" = none →
      (handle_message chain q).2 = "No encontré información.") ∧
    (∀ a, r.fields.lookup "result" = some a → (handle_message chain q).2 = a) := by
  constructor
  · intro hn
    simp [handle_message, h, QAResponse.get, hn]
  · intro a ha
    simp [handle_message, h, QAResponse.get, ha]

theorem fallback_string_amended_witness :
    (handle_message chainAnswer "q").2 = "Paris" :=
  (fallback_string_amended chainAnswer "q" ⟨[("result", "Paris")]⟩ rfl).2 "Paris" rfl

/-- C6: dispatch is by declared mimetype — a Google-native document is
exported to .docx, a Google-native presentation to .pptx, a Google-native
spreadsheet is skipped (logged, excluded, not an error), any other mimetype
is downloaded as-is with its extension taken from the file name, and an
extension with no extractor is skipped without error. -/
theorem mime_dispatch_cases (env : DriveEnv) (st : LoadState)
    (f1 f2 f3 f4 f5 : DriveFile)
    (h1 : f1.mimeType = googleDocMime)
    (h2 : f2.mimeType = googleSlidesMime)
    (h3 : f3.mimeType = googleSheetMime)
    (h4a : f4.mimeType ≠ googleDocMime) (h4b : f4.mimeType ≠ googleSlidesMime)
    (h4c : f4.mimeType ≠ googleSheetMime)
    (h5a : f5.mimeType ≠ googleDocMime) (h5b : f5.mimeType ≠ googleSlidesMime)
    (h5c : f5.mimeType ≠ googleSheetMime)
    (h5d : extensionLoader (splitextExt f5.name) = none)
    (h5e : env.download (DriveRequest.getMedia f5.id) = .ok ()) :
    mimeDispatch f1 = some (.exportMedia f1.id wordExportMime, ".docx") ∧
    mimeDispatch f2 = some (.exportMedia f2.id pptExportMime, ".pptx") ∧
    mimeDispatch f3 = none ∧
    processFile env st f3 =
      { st with log := st.log ++ [.warnSpreadsheetSkipped f3.name] } ∧
    fileOutcome env f3 = .ok [] ∧
    mimeDispatch f4 = some (.getMedia f4.id, splitextExt f4.name) ∧
    processFile env st f5 =
      { st with tempFilesCreated := st.tempFilesCreated + 1,
                log := st.log ++ [.warnUnsupported f5.name] } ∧
    fileOutcome env f5 = .ok [] := by
  have hd3 : mimeDispatch f3 = none := by
    unfold mimeDispatch
    rw [h3]
    have hne1 : googleSheetMime ≠ googleDocMime := by decide
    have hne2 : googleSheetMime ≠ googleSlidesMime := by decide
    simp [hne1, hne2]
  have hd5 : mimeDispatch f5 = some (.getMedia f5.id, splitextExt f5.name) := by
    unfold mimeDispatch
    simp [h5a, h5b, h5c]
  refine ⟨?_, ?_, hd3, ?_, ?_, ?_, ?_, ?_⟩
  · unfold mimeDispatch
    simp [h1]
  · unfold mimeDispatch
    rw [h2]
    have hne : googleSlidesMime ≠ googleDocMime := by decide
    simp [hne]
  · simp [processFile, hd3]
  · simp [fileOutcome, hd3]
  · unfold mimeDispatch
    simp [h4a, h4b, h4c]
  · simp [processFile, hd5, h5e, h5d]
  · simp [fileOutcome, hd5, h5e, h5d]

theorem mime_dispatch_cases_witness :
    mimeDispatch fDoc = some (.exportMedia fDoc.id wordExportMime, ".docx") ∧
    mimeDispatch fSheet = none :=
  have h := mime_dispatch_cases envNoop initState fDoc fSlides fSheet fPlain fText
    rfl rfl rfl (by decide) (by decide) (by decide) (by decide) (by decide)
    (by decide) rfl rfl
  ⟨h.1, h.2.2.1⟩

/-- C7 is a code bug: the per-file staging file is created with
`tempfile.NamedTemporaryFile(delete=False, ...)` (line 74) and the source
never closes or unlinks it on any path, so even on a fully successful
extraction the temporary resource outlives the file's processing:
one file goes through, one temp file was created, zero were released. -/
theorem temp_file_not_released :
    (processFile envPdf initState filePdf).documents =
      [⟨"lorem ipsum", "paper.pdf"⟩] ∧
    (processFile envPdf initState filePdf).tempFilesCreated = 1 ∧
    (processFile envPdf initState filePdf).tempFilesReleased = 0 :=
  ⟨rfl, rfl, rfl⟩

/-- C8 counterexample: an extractor that succeeds with an empty-bodied
document puts that document in the loader's output — the loader does not
drop empty bodies, so "every Document in the output has a non-empty body"
is false. -/
theorem empty_body_counterexample :
    get_documents_from_drive senvEmptyDoc envEmptyDoc = .ok stEmptyDoc ∧
    ¬ (∀ d ∈ stEmptyDoc.documents, d.page_content ≠ "") := by
  refine ⟨rfl, fun h => ?_⟩
  exact h ⟨"", "empty.pdf"⟩ (by simp [stEmptyDoc]) rfl

/-- C8 (amended): files whose extraction raises contribute nothing to the
output, but no emptiness filtering happens — the loader's output is exactly
the concatenation of whatever each file's successful extraction returned,
empty-bodied documents included. -/
theorem loader_output_characterization (senv : DriveSetupEnv) (env : DriveEnv)
    (files : List DriveFile) (h : driveSetup senv = .ok files) :
    ∃ st, get_documents_from_drive senv env = .ok st ∧
      st.documents = extractedDocs env files := by
  refine ⟨files.foldl (processFile env) initState, ?_, ?_⟩
  · unfold get_documents_from_drive
    rw [h]
  · rw [foldl_processFile_documents]
    simp [initState]

theorem loader_output_characterization_witness :
    ∃ st, get_documents_from_drive senvEmptyDoc envEmptyDoc = .ok st ∧
      st.documents = extractedDocs envEmptyDoc [fileEmpty] :=
  loader_output_characterization senvEmptyDoc envEmptyDoc [fileEmpty] rfl

/-- C9: splitting is deterministic — two calls of `split_documents` on the
same documents with the same parameters give identical chunk sequences
(the splitter is a pure function of its input and parameters). -/
theorem split_deterministic (S O : Nat) (h h2 : O < S) (docs : List Document) :
    split_documents S O h docs = split_documents S O h2 docs := rfl

theorem split_deterministic_witness :
    split_documents 1000 100 (by omega) [⟨"abc", "a.pdf"⟩] =
      split_documents 1000 100 (by omega) [⟨"abc", "a.pdf"⟩] :=
  split_deterministic 1000 100 (by omega) (by omega) [⟨"abc", "a.pdf"⟩]

/-- C10: a failure in credential decoding, service construction or folder
listing (the stage before the per-file loop) propagates uncaught out of
`get_documents_from_drive` and crashes `main`; once the setup stage
succeeds, the loading operation always returns (per-file errors are the
only ones caught, and they never escape). -/
theorem setup_error_propagates (senv senv2 : DriveSetupEnv) (env : DriveEnv)
    (benv : BuildEnv) (e : String) (files : List DriveFile)
    (h : driveSetup senv = .error e) (h2 : driveSetup senv2 = .ok files) :
    get_documents_from_drive senv env = .error e ∧
    main senv env benv = .crashed e ∧
    ∃ st, get_documents_from_drive senv2 env = .ok st := by
  have hg : get_documents_from_drive senv env = .error e := by
    unfold get_documents_from_drive
    rw [h]
  refine ⟨hg, ?_, ⟨_, by unfold get_documents_from_drive; rw [h2]⟩⟩
  unfold main
  rw [hg]

theorem setup_error_propagates_witness :
    get_documents_from_drive senvBadCreds envNoop = .error "invalid base64 credentials" ∧
    main senvBadCreds envNoop benvNoop = .crashed "invalid base64 credentials" ∧
    ∃ st, get_documents_from_drive senvNoFiles envNoop = .ok st :=
  setup_error_propagates senvBadCreds senvNoFiles envNoop benvNoop
    "invalid base64 credentials" [] rfl rfl

end CachimBot
